import Mathlib

/-!
Verification of the Syncora frontend core against its specification.

Part 1 models the offline-first service worker (`sw.js`): the three named
cache stores, request routing, the per-route handler functions
(`handleApiRequest`, `handleNavigationRequest`, `handleStaticAssets`),
the install and activate lifecycle listeners, and the helpers
(`isCacheableApi`, `fetchAndCache`, `getOfflineHTML`).

Part 2 models the agent-trace reducer (`AgentTraceContext.tsx`): the
`AgentAction` / `AgentTrace` data model, the WebSocket message handler
(`handleWebSocketMessage`) and the local methods (`addAction`,
`updateAction`, `completeTrace`, `startNewTrace`, `clearTraces`) as a pure
step function on an explicit state.

Modelling conventions shared by both parts:
- JavaScript values that may be `undefined` are modelled as `Option`;
  an `Option` wire field is `some` exactly when the JS value is present
  and truthy, so `a || b` becomes `jsOr a b` and `x ? y : z` becomes a
  match on presence.
- Structured JSON payloads (`input`, `output`, `metadata`) are carried as
  their `JSON.stringify` serialization, i.e. plain strings.
- `new Date().toISOString()` and `Date.now()` are abstracted by a `now`
  string parameter supplied to each step.
- Network effects are passed in explicitly: a fetch is an
  `Option Response` (`none` models a rejected fetch).
-/

/-- A snapshot of an HTTP response as the Cache API stores it: the `ok`
flag, numeric status, the content-type header, and the body text. -/
structure Response where
  ok : Bool
  status : Nat
  contentType : String
  body : String
deriving Repr, DecidableEq

/-- Builds a `new Response(body, init)` value: `ok` is true exactly when
the status is in the 200-299 range, as the platform defines it. -/
def mkResponse (status : Nat) (contentType body : String) : Response :=
  { ok := decide (200 ≤ status ∧ status ≤ 299), status := status,
    contentType := contentType, body := body }

/-- A single named cache store: an association list from request keys
(request URLs) to stored response snapshots. -/
abbrev Cache := List (String × Response)

/-- The CacheStorage of the origin: an ordered list of named stores. -/
abbrev CacheStorage := List (String × Cache)

/-- Looks a request key up in one store (first matching entry). -/
def cacheMatch : Cache → String → Option Response
  | [], _ => none
  | e :: rest, key => if e.1 = key then some e.2 else cacheMatch rest key

/-- Models `caches.match(request)`: searches every store in order and
returns the first hit. -/
def cachesMatch : CacheStorage → String → Option Response
  | [], _ => none
  | nc :: rest, key =>
    match cacheMatch nc.2 key with
    | some r => some r
    | none => cachesMatch rest key

/-- Models `cache.put(request, response)` on one store: replaces the
entry for the key if present, otherwise appends it. -/
def cachePutIn : Cache → String → Response → Cache
  | [], key, r => [(key, r)]
  | e :: rest, key, r =>
    if e.1 = key then (key, r) :: rest else e :: cachePutIn rest key r

/-- Models `caches.open(name)` followed by `cache.put(request, response)`:
writes into the named store, creating the store if it does not exist. -/
def cacheOpenPut : CacheStorage → String → String → Response → CacheStorage
  | [], name, key, r => [(name, [(key, r)])]
  | nc :: rest, name, key, r =>
    if nc.1 = name then (nc.1, cachePutIn nc.2 key r) :: rest
    else nc :: cacheOpenPut rest name key r

/-- Looks a key up inside the store with the given name only. -/
def storeLookup : CacheStorage → String → String → Option Response
  | [], _, _ => none
  | nc :: rest, name, key =>
    if nc.1 = name then cacheMatch nc.2 key else storeLookup rest name key

/-- Models `caches.keys()`: the live store names. -/
def cacheKeys (s : CacheStorage) : List String := s.map (fun nc => nc.1)

/-- `const CACHE_NAME = 'syncora-v1'` — the core cache store. -/
def CACHE_NAME : String := "syncora-v1"

/-- `const OFFLINE_URL = '/offline.html'`. -/
def OFFLINE_URL : String := "/offline.html"

/-- `const CORE_ASSETS` — the fixed manifest cached at install time. -/
def CORE_ASSETS : List String :=
  ["/", "/offline.html", "/manifest.json",
   "/icons/icon-192x192.png", "/icons/icon-512x512.png"]

/-- `const CACHEABLE_API_PATTERNS` — the cacheable API path allowlist. -/
def CACHEABLE_API_PATTERNS : List String :=
  ["/api/v1/curriculum", "/api/v1/offline/packs", "/api/v1/offline/prebuilt"]

/-- `const DYNAMIC_CACHE = 'syncora-dynamic-v1'`. -/
def DYNAMIC_CACHE : String := "syncora-dynamic-v1"

/-- `const OFFLINE_PACKS_CACHE = 'syncora-offline-packs-v1'`. -/
def OFFLINE_PACKS_CACHE : String := "syncora-offline-packs-v1"

/-- JS `String.prototype.startsWith`, modelled on character sequences. -/
def strStartsWith (s pat : String) : Bool :=
  pat.toList.isPrefixOf s.toList

/-- `isCacheableApi(pathname)`: true when the pathname starts with one of
the allowlisted API prefixes. -/
def isCacheableApi (pathname : String) : Bool :=
  CACHEABLE_API_PATTERNS.any (fun pat => strStartsWith pathname pat)

/-- The fields of a fetch-event request read by the worker: the full URL
(used as the cache key), its pathname, the HTTP method, the request mode
and the destination. -/
structure Request where
  url : String
  pathname : String
  method : String
  mode : String
  destination : String
deriving Repr, DecidableEq

/-- Which handler the fetch listener dispatches a request to. -/
inductive FetchRoute where
  | notIntercepted
  | api
  | offlineDownload
  | navigation
  | staticAsset
deriving Repr, DecidableEq

/-- True when `pat` is a prefix of some suffix of the character list. -/
def charsIncludes (pat : List Char) : List Char → Bool
  | [] => pat.isEmpty
  | c :: rest => pat.isPrefixOf (c :: rest) || charsIncludes pat rest

/-- True when `pat` occurs as a substring of `s` (JS `String.includes`),
modelled on character sequences. -/
def strIncludes (s pat : String) : Bool :=
  charsIncludes pat.toList s.toList

/-- The fetch event listener's classification, with the source's rule
order: non-GET requests are not intercepted; then API paths, then
offline-pack downloads, then navigations, then static assets. -/
def routeRequest (req : Request) : FetchRoute :=
  if req.method ≠ "GET" then .notIntercepted
  else if strStartsWith req.pathname "/api/" then .api
  else if strIncludes req.pathname "/offline/download" then .offlineDownload
  else if req.mode = "navigate" then .navigation
  else .staticAsset

/-- The synthesized 503 JSON response returned when an API fetch fails
with no cached copy. -/
def offlineApiResponse : Response :=
  mkResponse 503 "application/json"
    "\x7b\"error\":\"offline\",\"message\":\"You are currently offline. Please check your connection.\",\"message_ur\":\"آپ فی الحال آف لائن ہیں۔ براہ کرم اپنا کنکشن چیک کریں۔\"\x7d"

/-- The hard-coded offline fallback HTML document built by
`getOfflineHTML()`. The source inlines a full styled page; it is modelled
by a concrete constant carrying its identifying content, since the claims
depend only on which body the handlers choose together with the response
status and content type. -/
def getOfflineHTML : String :=
  "<!DOCTYPE html><html lang=\"en\" dir=\"ltr\"><head><title>Syncora - Offline</title></head><body><h1>You are Offline</h1><p>Syncora has offline capabilities to keep you learning.</p></body></html>"

/-- `handleApiRequest(request)`: network first; a successful ok response
is written to the dynamic store when the pathname is allowlisted; on
network failure fall back to any cached copy, else to the offline JSON
response. The fetch outcome is an explicit argument. -/
def handleApiRequest (req : Request) (fetchResult : Option Response)
    (storage : CacheStorage) : Response × CacheStorage :=
  match fetchResult with
  | some response =>
    if response.ok && isCacheableApi req.pathname then
      (response, cacheOpenPut storage DYNAMIC_CACHE req.url response)
    else
      (response, storage)
  | none =>
    match cachesMatch storage req.url with
    | some cached => (cached, storage)
    | none => (offlineApiResponse, storage)

/-- `handleNavigationRequest(request)`: network first with write-through
to the dynamic store on ok; on failure fall back to the cached page, then
to the cached offline page, then to the built-in fallback HTML served
with status 200 and content-type text/html. -/
def handleNavigationRequest (req : Request) (fetchResult : Option Response)
    (storage : CacheStorage) : Response × CacheStorage :=
  match fetchResult with
  | some response =>
    if response.ok then
      (response, cacheOpenPut storage DYNAMIC_CACHE req.url response)
    else
      (response, storage)
  | none =>
    match cachesMatch storage req.url with
    | some cached => (cached, storage)
    | none =>
      match cachesMatch storage OFFLINE_URL with
      | some offline => (offline, storage)
      | none => (mkResponse 200 "text/html" getOfflineHTML, storage)

/-- The inline SVG placeholder returned for a failed image fetch. -/
def imagePlaceholderResponse : Response :=
  mkResponse 200 "image/svg+xml"
    "<svg xmlns=\"http://www.w3.org/2000/svg\" width=\"100\" height=\"100\"><rect fill=\"#ddd\" width=\"100\" height=\"100\"/><text x=\"50\" y=\"50\" text-anchor=\"middle\" fill=\"#888\">Offline</text></svg>"

/-- Outcome of `handleStaticAssets`: the value returned to the caller
(`Except.error ()` models a rethrown fetch failure), the storage as the
handler leaves it before any background refresh lands, and the list of
request keys for which a background `fetchAndCache` was fired. -/
structure StaticOutcome where
  result : Except Unit Response
  storage : CacheStorage
  backgroundFetchKeys : List String
deriving Repr

/-- `handleStaticAssets(request)`: cache first. On a cache hit the cached
entry is returned and one background `fetchAndCache(request)` is fired
(not awaited). On a miss the network is tried, an ok response is written
through to the dynamic store; a failed fetch yields the SVG placeholder
for image destinations and rethrows otherwise. -/
def handleStaticAssets (req : Request) (fetchResult : Option Response)
    (storage : CacheStorage) : StaticOutcome :=
  match cachesMatch storage req.url with
  | some cached =>
    { result := .ok cached, storage := storage,
      backgroundFetchKeys := [req.url] }
  | none =>
    match fetchResult with
    | some response =>
      if response.ok then
        { result := .ok response,
          storage := cacheOpenPut storage DYNAMIC_CACHE req.url response,
          backgroundFetchKeys := [] }
      else
        { result := .ok response, storage := storage, backgroundFetchKeys := [] }
    | none =>
      if req.destination = "image" then
        { result := .ok imagePlaceholderResponse, storage := storage,
          backgroundFetchKeys := [] }
      else
        { result := .error (), storage := storage, backgroundFetchKeys := [] }

/-- `fetchAndCache(request)`: the background refresh; an ok fetch result
is written to the dynamic store under the same key, failures are
swallowed silently. -/
def fetchAndCache (key : String) (fetchResult : Option Response)
    (storage : CacheStorage) : CacheStorage :=
  match fetchResult with
  | some r => if r.ok then cacheOpenPut storage DYNAMIC_CACHE key r else storage
  | none => storage

/-- True for the three cache names the activate listener keeps. -/
def isCurrentCacheName (name : String) : Bool :=
  name = CACHE_NAME || name = DYNAMIC_CACHE || name = OFFLINE_PACKS_CACHE

/-- The activate listener: enumerates `caches.keys()` and deletes every
cache whose name is not one of the three current names; on the storage
model this keeps exactly the stores with a current name. -/
def activateCaches (storage : CacheStorage) : CacheStorage :=
  storage.filter (fun nc => isCurrentCacheName nc.1)

/-- True when the fetch of one asset fails in the sense of
`cache.addAll`: the fetch rejects or the response is not ok. -/
def assetFetchFails (fetchAsset : String → Option Response) (u : String) : Bool :=
  match fetchAsset u with
  | some r => !r.ok
  | none => true

/-- Models `cache.addAll(urls)`: fetches every URL and stores all the
responses, rejecting (returning `none`) as soon as any single fetch fails
or returns a non-ok response; a rejected `addAll` stores nothing. -/
def addAllAssets (fetchAsset : String → Option Response) :
    List String → Option (List (String × Response))
  | [] => some []
  | u :: rest =>
    match fetchAsset u with
    | none => none
    | some r =>
      if r.ok then (addAllAssets fetchAsset rest).map (fun es => (u, r) :: es)
      else none

/-- Observable outcome of the install event listener. -/
structure InstallOutcome where
  waitUntilRejected : Bool
  skipWaitingCalled : Bool
  coreCacheEntries : List (String × Response)
  loggedInstallFailed : Bool
deriving Repr, DecidableEq

/-- The install event listener: `caches.open(CACHE_NAME)`, then
`cache.addAll(CORE_ASSETS)`, then `self.skipWaiting()`, with a final
`.catch` that logs the failure. Because the catch handler resolves the
promise chain, the promise handed to `event.waitUntil` never rejects,
whether or not `addAll` failed. -/
def installStep (fetchAsset : String → Option Response) : InstallOutcome :=
  match addAllAssets fetchAsset CORE_ASSETS with
  | some entries =>
    { waitUntilRejected := false, skipWaitingCalled := true,
      coreCacheEntries := entries, loggedInstallFailed := false }
  | none =>
    { waitUntilRejected := false, skipWaitingCalled := false,
      coreCacheEntries := [], loggedInstallFailed := true }

/-- Per the service-worker lifecycle, the install step fails exactly when
the promise passed to `event.waitUntil` rejects. -/
def installStepFails (o : InstallOutcome) : Bool := o.waitUntilRejected

/-!
Part 2: the agent-trace reducer of `AgentTraceContext.tsx`.

Fields that the TypeScript interfaces declare as required strings but
that the handlers can populate with `undefined` at runtime (for example
`agent: data.action?.agent || data.agent` with both sides absent) are
modelled as `Option String`.
-/

/-- `a || b` on modelled JS values: `some` encodes present-and-truthy. -/
def jsOr (a b : Option String) : Option String :=
  match a with
  | some s => some s
  | none => b

/-- The `AgentAction` runtime record. -/
structure AgentAction where
  id : String
  agent : Option String
  action : Option String
  input : Option String
  output : Option String
  status : String
  duration_ms : Option Nat
  timestamp : String
  metadata : Option String
deriving Repr, DecidableEq

/-- The `AgentTrace` runtime record. `trace_id` and `session_id` are
`Option` because the `trace_start` / `trace_started` handlers copy wire
fields into them without defaulting. -/
structure AgentTrace where
  trace_id : Option String
  session_id : Option String
  started_at : String
  completed_at : Option String
  status : String
  total_duration_ms : Option Nat
  actions : List AgentAction
  current_agent : Option String
  summary : Option String
deriving Repr, DecidableEq

/-- The wire shape of one action inside an `init` snapshot trace; the
snapshot is assumed to carry `id`, `status` and `started_at`. -/
structure WireInitAction where
  id : String
  agent : Option String
  action : Option String
  input : Option String
  output : Option String
  status : String
  duration_ms : Option Nat
  started_at : String
deriving Repr, DecidableEq

/-- The wire shape of one trace inside an `init` snapshot. -/
structure WireTrace where
  id : String
  context_session_id : Option String
  started_at : String
  status : String
  actions : Option (List WireInitAction)
deriving Repr, DecidableEq

/-- The field mapping the `init` case applies to each snapshot action:
statuses map `started` to `running`, payloads are kept serialized. -/
def mapInitAction (a : WireInitAction) : AgentAction :=
  { id := a.id, agent := a.agent, action := a.action, input := a.input,
    output := a.output,
    status := if a.status = "started" then "running" else a.status,
    duration_ms := a.duration_ms, timestamp := a.started_at,
    metadata := none }

/-- The `data.trace` object read by the `trace_start` case. -/
structure WireTraceStartObj where
  id : Option String
  context_session_id : Option String
  started_at : Option String
deriving Repr, DecidableEq

/-- Fields read by the `trace_start` case. -/
structure TraceStartData where
  trace : Option WireTraceStartObj
deriving Repr, DecidableEq

/-- Fields read by the `trace_started` case. -/
structure TraceStartedData where
  trace_id : Option String
  session_id : Option String
  timestamp : Option String
deriving Repr, DecidableEq

/-- The object form of `data.action` read by the action-start cases. -/
structure WireActionObj where
  id : Option String
  agent : Option String
  action : Option String
  input : Option String
  started_at : Option String
deriving Repr, DecidableEq

/-- Fields read by the `action_start` / `action_started` / `agent_action`
cases. `action` holds `data.action` when it is an object; `actionStr`
holds it when the wire sent a plain string (the `|| data.action`
fallbacks then read it). -/
structure ActionStartData where
  action : Option WireActionObj
  actionStr : Option String
  action_id : Option String
  agent : Option String
  input : Option String
  metadata : Option String
  timestamp : Option String
  trace_id : Option String
deriving Repr, DecidableEq

/-- Fields read by the `action_update` case. -/
structure ActionUpdateData where
  action_id : Option String
  status : Option String
  output : Option String
  duration_ms : Option Nat
deriving Repr, DecidableEq

/-- Fields read by the `action_completed` case. -/
structure ActionCompletedData where
  action_id : Option String
  output : Option String
  duration_ms : Option Nat
deriving Repr, DecidableEq

/-- Fields read by the `action_error` case. -/
structure ActionErrorData where
  action_id : Option String
  error : Option String
deriving Repr, DecidableEq

/-- Fields read by the `trace_complete` / `trace_completed` case. -/
structure TraceCompleteData where
  timestamp : Option String
  duration_ms : Option Nat
  summary : Option String
deriving Repr, DecidableEq

/-- The argument of the local `addAction` method:
`Omit<AgentAction, "id" | "timestamp">`. -/
structure AddActionArgs where
  agent : Option String
  action : Option String
  input : Option String
  output : Option String
  status : String
  duration_ms : Option Nat
  metadata : Option String
deriving Repr, DecidableEq

/-- The argument of the local `updateAction` method:
`Partial<AgentAction>`. An outer `some` means the key is present in the
update object; for optional fields the inner `Option` is the value. -/
structure ActionUpdates where
  id : Option String
  agent : Option (Option String)
  action : Option (Option String)
  input : Option (Option String)
  output : Option (Option String)
  status : Option String
  duration_ms : Option (Option Nat)
  timestamp : Option String
  metadata : Option (Option String)
deriving Repr, DecidableEq

/-- The object spread `\x7b ...a, ...updates \x7d`: present keys of the
update override the action's fields. -/
def applyUpdates (u : ActionUpdates) (a : AgentAction) : AgentAction :=
  { id := u.id.getD a.id,
    agent := u.agent.getD a.agent,
    action := u.action.getD a.action,
    input := u.input.getD a.input,
    output := u.output.getD a.output,
    status := u.status.getD a.status,
    duration_ms := u.duration_ms.getD a.duration_ms,
    timestamp := u.timestamp.getD a.timestamp,
    metadata := u.metadata.getD a.metadata }

/-- One operation on the reducer: a WebSocket message (dispatched on
`data.type`; `action_started` and `agent_action` share the
`action_start` body, `trace_completed` shares the `trace_complete`
body, and any other type falls through unchanged) or one of the local
methods of the provider. -/
inductive Op where
  | init (traces : List WireTrace)
  | trace_start (d : TraceStartData)
  | trace_started (d : TraceStartedData)
  | action_start (d : ActionStartData)
  | action_update (d : ActionUpdateData)
  | action_completed (d : ActionCompletedData)
  | action_error (d : ActionErrorData)
  | trace_complete (d : TraceCompleteData)
  | unknownMsg
  | startNewTrace (sessionId : String)
  | addAction (args : AddActionArgs)
  | updateAction (actionId : String) (u : ActionUpdates)
  | completeTrace (summary : Option String)
  | clearTraces
deriving Repr

/-- The provider state touched by the modelled operations. -/
structure TraceState where
  currentTrace : Option AgentTrace
  allTraces : List AgentTrace
  recentActions : List AgentAction
  actionIdCounter : Nat
  traceVisible : Bool
deriving Repr, DecidableEq

/-- The provider's initial state. -/
def initialState : TraceState :=
  { currentTrace := none, allTraces := [], recentActions := [],
    actionIdCounter := 0, traceVisible := false }

/-- `generateActionId()`: increments the ref counter, then builds
`action_<Date.now()>_<counter>`; `now` abstracts `Date.now()`. -/
def generateActionId (now : String) (counter : Nat) : String × Nat :=
  ("action_" ++ now ++ "_" ++ toString (counter + 1), counter + 1)

/-- Builds the `newAction` of the action-start cases, resolving the id as
`data.action?.id || data.action_id || generateActionId()` (the counter
advances only when the generator runs). -/
def mkStartAction (d : ActionStartData) (now : String) (counter : Nat) :
    AgentAction × Nat :=
  let resolved :=
    match jsOr (d.action.bind (fun a => a.id)) d.action_id with
    | some s => (s, counter)
    | none => generateActionId now counter
  ({ id := resolved.1,
     agent := jsOr (d.action.bind (fun a => a.agent)) d.agent,
     action := jsOr (d.action.bind (fun a => a.action)) d.actionStr,
     input :=
       match d.action.bind (fun a => a.input) with
       | some s => some s
       | none => d.input,
     output := none,
     status := "running",
     duration_ms := none,
     timestamp :=
       (jsOr (d.action.bind (fun a => a.started_at)) d.timestamp).getD now,
     metadata := d.metadata }, resolved.2)

/-- The `init` case: seeds `currentTrace` from the first snapshot trace
when the snapshot is non-empty, mapping `active` to `running`. -/
def stepInit (traces : List WireTrace) (st : TraceState) : TraceState :=
  match traces with
  | [] => st
  | latest :: _ =>
    { st with
      currentTrace := some
        { trace_id := some latest.id,
          session_id := some (latest.context_session_id.getD "unknown"),
          started_at := latest.started_at,
          completed_at := none,
          status := if latest.status = "active" then "running" else latest.status,
          total_duration_ms := none,
          actions := (latest.actions.getD []).map mapInitAction,
          current_agent := none,
          summary := none },
      traceVisible := true }

/-- The `trace_start` case: replaces `currentTrace` with a fresh running
trace built from `data.trace`. -/
def stepTraceStart (d : TraceStartData) (now : String) (st : TraceState) :
    TraceState :=
  { st with
    currentTrace := some
      { trace_id := d.trace.bind (fun w => w.id),
        session_id :=
          some ((d.trace.bind (fun w => w.context_session_id)).getD "unknown"),
        started_at := (d.trace.bind (fun w => w.started_at)).getD now,
        completed_at := none, status := "running", total_duration_ms := none,
        actions := [], current_agent := none, summary := none },
    traceVisible := true }

/-- The `trace_started` case. -/
def stepTraceStarted (d : TraceStartedData) (now : String) (st : TraceState) :
    TraceState :=
  { st with
    currentTrace := some
      { trace_id := d.trace_id,
        session_id := d.session_id,
        started_at := d.timestamp.getD now,
        completed_at := none, status := "running", total_duration_ms := none,
        actions := [], current_agent := none, summary := none },
    traceVisible := true }

/-- The action-start cases: build `newAction`; append it to the current
trace, auto-creating a running trace when none exists; push it onto the
front of `recentActions` capped at 50; force visibility. -/
def stepActionStart (d : ActionStartData) (now : String) (st : TraceState) :
    TraceState :=
  let built := mkStartAction d now st.actionIdCounter
  let newAction := built.1
  let newCurrent :=
    match st.currentTrace with
    | none =>
      some { trace_id := jsOr d.trace_id (some ("trace_" ++ now)),
             session_id := some "auto",
             started_at := now,
             completed_at := none,
             status := "running",
             total_duration_ms := none,
             actions := [newAction],
             current_agent := newAction.agent,
             summary := none }
    | some prev =>
      some { prev with current_agent := newAction.agent,
                       actions := prev.actions ++ [newAction] }
  { st with currentTrace := newCurrent,
            recentActions := (newAction :: st.recentActions).take 50,
            actionIdCounter := built.2,
            traceVisible := true }

/-- The status mapping of the `action_update` case: `completed` and
`error` pass through, `streaming` and everything else become
`running`. -/
def updateStatusOf (d : ActionUpdateData) : String :=
  if d.status = some "completed" then "completed"
  else if d.status = some "error" then "error"
  else if d.status = some "streaming" then "running"
  else "running"

/-- The per-action patch of the `action_update` case. -/
def applyActionUpdate (d : ActionUpdateData) (a : AgentAction) : AgentAction :=
  { a with status := updateStatusOf d,
           output :=
             match d.output with
             | some o => some o
             | none => a.output,
           duration_ms := d.duration_ms }

/-- The `action_update` case: the patch is mapped over the matching id in
both the current trace's actions and `recentActions`. -/
def stepActionUpdate (d : ActionUpdateData) (st : TraceState) : TraceState :=
  let patch := fun (a : AgentAction) =>
    if some a.id = d.action_id then applyActionUpdate d a else a
  { st with
    currentTrace := st.currentTrace.map
      (fun t => { t with actions := t.actions.map patch }),
    recentActions := st.recentActions.map patch }

/-- The per-action patch of the `action_completed` case: status forced to
`completed`, `output` and `duration_ms` copied from the event directly. -/
def applyActionCompleted (d : ActionCompletedData) (a : AgentAction) :
    AgentAction :=
  { a with status := "completed", output := d.output,
           duration_ms := d.duration_ms }

/-- The `action_completed` case: dual write to both collections. -/
def stepActionCompleted (d : ActionCompletedData) (st : TraceState) :
    TraceState :=
  let patch := fun (a : AgentAction) =>
    if some a.id = d.action_id then applyActionCompleted d a else a
  { st with
    currentTrace := st.currentTrace.map
      (fun t => { t with actions := t.actions.map patch }),
    recentActions := st.recentActions.map patch }

/-- The per-action patch of the `action_error` case: status `error`, the
event's `error` text stored as the action's `output`. -/
def applyActionError (d : ActionErrorData) (a : AgentAction) : AgentAction :=
  { a with status := "error", output := d.error }

/-- The `action_error` case. The source patches only the current trace's
action list here; `recentActions` is left untouched. -/
def stepActionError (d : ActionErrorData) (st : TraceState) : TraceState :=
  let patch := fun (a : AgentAction) =>
    if some a.id = d.action_id then applyActionError d a else a
  { st with
    currentTrace := st.currentTrace.map
      (fun t => { t with actions := t.actions.map patch }) }

/-- The `trace_complete` / `trace_completed` case: when a current trace
exists, mark it completed, stamp completion fields, clear
`current_agent`, and archive it at the front of `allTraces` capped at
20. -/
def stepTraceComplete (d : TraceCompleteData) (now : String) (st : TraceState) :
    TraceState :=
  match st.currentTrace with
  | none => st
  | some prev =>
    let completed :=
      { prev with status := "completed",
                  completed_at := some (d.timestamp.getD now),
                  total_duration_ms := d.duration_ms,
                  summary := d.summary,
                  current_agent := none }
    { st with currentTrace := some completed,
              allTraces := (completed :: st.allTraces).take 20 }

/-- The local `startNewTrace(sessionId)` method. -/
def stepStartNewTrace (sessionId : String) (now : String) (st : TraceState) :
    TraceState :=
  { st with
    currentTrace := some
      { trace_id := some ("trace_" ++ now),
        session_id := some sessionId,
        started_at := now,
        completed_at := none, status := "running", total_duration_ms := none,
        actions := [], current_agent := none, summary := none },
    traceVisible := true }

/-- Builds the `newAction` of the local `addAction` method: the fields of
the argument with a generated id and the current timestamp. -/
def mkLocalAction (args : AddActionArgs) (now : String) (counter : Nat) :
    AgentAction × Nat :=
  let generated := generateActionId now counter
  ({ id := generated.1, agent := args.agent, action := args.action,
     input := args.input, output := args.output, status := args.status,
     duration_ms := args.duration_ms, timestamp := now,
     metadata := args.metadata }, generated.2)

/-- The local `addAction` method: generates id and timestamp, appends to
the current trace (auto-creating one), pushes onto `recentActions` capped
at 50, forces visibility. -/
def stepAddAction (args : AddActionArgs) (now : String) (st : TraceState) :
    TraceState :=
  let built := mkLocalAction args now st.actionIdCounter
  let newAction := built.1
  let newCurrent :=
    match st.currentTrace with
    | none =>
      some { trace_id := some ("trace_" ++ now),
             session_id := some "auto",
             started_at := now,
             completed_at := none,
             status := "running",
             total_duration_ms := none,
             actions := [newAction],
             current_agent := args.agent,
             summary := none }
    | some prev =>
      some { prev with current_agent := args.agent,
                       actions := prev.actions ++ [newAction] }
  { st with currentTrace := newCurrent,
            recentActions := (newAction :: st.recentActions).take 50,
            actionIdCounter := built.2,
            traceVisible := true }

/-- The local `updateAction(actionId, updates)` method: the spread merge
is mapped over the matching id in both collections. -/
def stepUpdateAction (actionId : String) (u : ActionUpdates) (st : TraceState) :
    TraceState :=
  let patch := fun (a : AgentAction) =>
    if a.id = actionId then applyUpdates u a else a
  { st with
    currentTrace := st.currentTrace.map
      (fun t => { t with actions := t.actions.map patch }),
    recentActions := st.recentActions.map patch }

/-- The local `completeTrace(summary?)` method: like `trace_complete` but
stamping `completed_at` from the clock and leaving `total_duration_ms`
unchanged. -/
def stepCompleteTrace (summary : Option String) (now : String)
    (st : TraceState) : TraceState :=
  match st.currentTrace with
  | none => st
  | some prev =>
    let completed :=
      { prev with status := "completed",
                  completed_at := some now,
                  summary := summary,
                  current_agent := none }
    { st with currentTrace := some completed,
              allTraces := (completed :: st.allTraces).take 20 }

/-- The local `clearTraces()` method: empties `allTraces` and
`recentActions`, leaving the current trace alone. -/
def stepClearTraces (st : TraceState) : TraceState :=
  { st with allTraces := [], recentActions := [] }

/-- One step of the reducer: dispatch on the operation. -/
def step (op : Op) (now : String) (st : TraceState) : TraceState :=
  match op with
  | .init traces => stepInit traces st
  | .trace_start d => stepTraceStart d now st
  | .trace_started d => stepTraceStarted d now st
  | .action_start d => stepActionStart d now st
  | .action_update d => stepActionUpdate d st
  | .action_completed d => stepActionCompleted d st
  | .action_error d => stepActionError d st
  | .trace_complete d => stepTraceComplete d now st
  | .unknownMsg => st
  | .startNewTrace sessionId => stepStartNewTrace sessionId now st
  | .addAction args => stepAddAction args now st
  | .updateAction actionId u => stepUpdateAction actionId u st
  | .completeTrace summary => stepCompleteTrace summary now st
  | .clearTraces => stepClearTraces st

/-- Runs a sequence of operations, each with its own clock value. -/
def runOps : List (Op × String) → TraceState → TraceState
  | [], st => st
  | (op, now) :: rest, st => runOps rest (step op now st)

/-- The action list of the current trace, or `[]` when there is none. -/
def currentActions (st : TraceState) : List AgentAction :=
  match st.currentTrace with
  | some t => t.actions
  | none => []

/-!
Helper lemmas about the cache model and the reducer, plus the dual-write
agreement predicate.
-/

/-- After `cache.put`, looking the key up in that store yields the stored
response. -/
theorem cacheMatch_cachePutIn (c : Cache) (key : String) (r : Response) :
    cacheMatch (cachePutIn c key r) key = some r := by
  induction c with
  | nil => simp [cachePutIn, cacheMatch]
  | cons e rest ih =>
    by_cases h : e.1 = key
    · simp [cachePutIn, h, cacheMatch]
    · simp [cachePutIn, h, cacheMatch, ih]

/-- After `caches.open(name)` + `put`, the named store answers the key
with the stored response. -/
theorem storeLookup_cacheOpenPut (s : CacheStorage) (name key : String)
    (r : Response) :
    storeLookup (cacheOpenPut s name key r) name key = some r := by
  induction s with
  | nil => simp [cacheOpenPut, storeLookup, cacheMatch]
  | cons nc rest ih =>
    by_cases h : nc.1 = name
    · simp [cacheOpenPut, h, storeLookup, cacheMatch_cachePutIn]
    · simp [cacheOpenPut, h, storeLookup, ih]

/-- `cache.addAll` rejects as soon as any listed asset fails to fetch or
fetches non-ok. -/
theorem addAllAssets_fail (f : String → Option Response) (l : List String)
    (u : String) (hu : u ∈ l) (hfail : assetFetchFails f u = true) :
    addAllAssets f l = none := by
  induction l with
  | nil => cases hu
  | cons v rest ih =>
    cases hu with
    | head =>
      cases hf : f u with
      | none => simp [addAllAssets, hf]
      | some r =>
        have hok : r.ok = false := by
          simpa [assetFetchFails, hf] using hfail
        simp [addAllAssets, hf, hok]
    | tail _ hmem =>
      cases hf : f v with
      | none => simp [addAllAssets, hf]
      | some r =>
        by_cases hok : r.ok
        · simp [addAllAssets, hf, hok, ih hmem]
        · simp [addAllAssets, hf, hok]

/-- Every single reducer step keeps `recentActions` within 50 entries. -/
theorem step_recentActions_le (op : Op) (now : String) (st : TraceState)
    (h : st.recentActions.length ≤ 50) :
    (step op now st).recentActions.length ≤ 50 := by
  cases op with
  | init traces =>
    cases traces with
    | nil => simpa [step, stepInit] using h
    | cons w rest => simpa [step, stepInit] using h
  | trace_start d => simpa [step, stepTraceStart] using h
  | trace_started d => simpa [step, stepTraceStarted] using h
  | action_start d =>
    simp only [step, stepActionStart, List.length_take]
    exact Nat.min_le_left _ _
  | action_update d =>
    simpa [step, stepActionUpdate] using h
  | action_completed d =>
    simpa [step, stepActionCompleted] using h
  | action_error d => simpa [step, stepActionError] using h
  | trace_complete d =>
    cases hc : st.currentTrace with
    | none => simpa [step, stepTraceComplete, hc] using h
    | some t => simpa [step, stepTraceComplete, hc] using h
  | unknownMsg => simpa [step] using h
  | startNewTrace sessionId => simpa [step, stepStartNewTrace] using h
  | addAction args =>
    simp only [step, stepAddAction, List.length_take]
    exact Nat.min_le_left _ _
  | updateAction actionId u =>
    simpa [step, stepUpdateAction] using h
  | completeTrace summary =>
    cases hc : st.currentTrace with
    | none => simpa [step, stepCompleteTrace, hc] using h
    | some t => simpa [step, stepCompleteTrace, hc] using h
  | clearTraces => simp [step, stepClearTraces]

/-- Running any operation sequence keeps `recentActions` within 50. -/
theorem runOps_recentActions_le (ops : List (Op × String)) (st : TraceState)
    (h : st.recentActions.length ≤ 50) :
    (runOps ops st).recentActions.length ≤ 50 := by
  induction ops generalizing st with
  | nil => simpa [runOps] using h
  | cons p rest ih =>
    obtain ⟨op, now⟩ := p
    exact ih (step op now st) (step_recentActions_le op now st h)

/-- The dual-write agreement property for one action id: every copy of
the action held in the current trace and every copy held in
`recentActions` record the same status, output and duration. -/
def copiesAgreeOn (i : String) (st : TraceState) : Prop :=
  ∀ a ∈ currentActions st, ∀ b ∈ st.recentActions,
    a.id = i → b.id = i →
    a.status = b.status ∧ a.output = b.output ∧ a.duration_ms = b.duration_ms

instance (i : String) (st : TraceState) : Decidable (copiesAgreeOn i st) := by
  unfold copiesAgreeOn
  infer_instance

/-- Agreement is preserved by any id-preserving, agreement-preserving
patch mapped over both collections at once. -/
theorem copiesAgree_map (i : String) (p : AgentAction → AgentAction)
    (hid : ∀ a, (p a).id = a.id)
    (hagree : ∀ a b : AgentAction, a.id = i → b.id = i →
      (a.status = b.status ∧ a.output = b.output ∧ a.duration_ms = b.duration_ms) →
      ((p a).status = (p b).status ∧ (p a).output = (p b).output ∧
        (p a).duration_ms = (p b).duration_ms))
    (st st' : TraceState)
    (hcur : currentActions st' = (currentActions st).map p)
    (hrec : st'.recentActions = st.recentActions.map p)
    (h : copiesAgreeOn i st) :
    copiesAgreeOn i st' := by
  intro a ha b hb hai hbi
  rw [hcur] at ha
  rw [hrec] at hb
  obtain ⟨a0, ha0, rfl⟩ := List.mem_map.mp ha
  obtain ⟨b0, hb0, rfl⟩ := List.mem_map.mp hb
  have hai0 : a0.id = i := by rw [← hid a0]; exact hai
  have hbi0 : b0.id = i := by rw [← hid b0]; exact hbi
  exact hagree a0 b0 hai0 hbi0 (h a0 ha0 b0 hb0 hai0 hbi0)

/-!
Concrete inputs used by witnesses and counterexamples.
-/

/-- A GET request to an allowlisted API endpoint. -/
def exApiReq : Request :=
  { url := "https://app.syncora.pk/api/v1/curriculum/topics",
    pathname := "/api/v1/curriculum/topics",
    method := "GET", mode := "cors", destination := "" }

/-- A successful JSON response. -/
def exApiResponse : Response := mkResponse 200 "application/json" "payload"

/-- A GET request for a static stylesheet. -/
def exStaticReq : Request :=
  { url := "https://app.syncora.pk/main.css", pathname := "/main.css",
    method := "GET", mode := "no-cors", destination := "style" }

/-- A cached stylesheet response. -/
def exCachedCss : Response := mkResponse 200 "text/css" "cached-css"

/-- A storage whose dynamic store already holds the stylesheet. -/
def exStaticStorage : CacheStorage :=
  [(DYNAMIC_CACHE, [("https://app.syncora.pk/main.css", exCachedCss)])]

/-- A navigation request. -/
def exNavReq : Request :=
  { url := "https://app.syncora.pk/dashboard", pathname := "/dashboard",
    method := "GET", mode := "navigate", destination := "document" }

/-- A storage holding one stale store next to the core store. -/
def exOldStorage : CacheStorage := [("syncora-old-v0", []), (CACHE_NAME, [])]

/-- A core-asset fetch map on which the offline page fails to fetch. -/
def failingCoreFetch : String → Option Response :=
  fun u => if u = "/offline.html" then none
           else some (mkResponse 200 "text/html" "asset")

/-- An action-start message for action id a1. -/
def exActionA1 : ActionStartData :=
  { action := none, actionStr := some "Generating content",
    action_id := some "a1", agent := some "content", input := some "topic",
    metadata := none, timestamp := some "t3", trace_id := some "trace-1" }

/-- An action-error message for action id a1. -/
def exErrorA1 : ActionErrorData := { action_id := some "a1", error := some "boom" }

/-- An action-update message for action id a1. -/
def exUpdA1 : ActionUpdateData :=
  { action_id := some "a1", status := some "completed", output := some "result",
    duration_ms := some 7 }

/-- An action-completed message for action id a1. -/
def exCompA1 : ActionCompletedData :=
  { action_id := some "a1", output := some "final", duration_ms := some 42 }

/-- A trace-started message for trace-1. -/
def exTraceStarted1 : TraceStartedData :=
  { trace_id := some "trace-1", session_id := some "s1", timestamp := some "t0" }

/-- A first trace-complete message. -/
def exTraceComplete1 : TraceCompleteData :=
  { timestamp := some "t2", duration_ms := some 120, summary := some "done" }

/-- A second trace-complete message. -/
def exTraceComplete2 : TraceCompleteData :=
  { timestamp := some "t4", duration_ms := some 200, summary := some "done again" }

/-- A local addAction argument. -/
def exAddArgs : AddActionArgs :=
  { agent := some "tutor", action := some "Formatting response",
    input := some "content", output := none, status := "running",
    duration_ms := none, metadata := none }

/-- A trace already in the completed status. -/
def exCompletedTrace : AgentTrace :=
  { trace_id := some "trace-1", session_id := some "s1", started_at := "t0",
    completed_at := some "t2", status := "completed",
    total_duration_ms := some 120, actions := [], current_agent := none,
    summary := some "done" }

/-- A state whose current trace is already completed. -/
def exCompletedState : TraceState :=
  { currentTrace := some exCompletedTrace, allTraces := [exCompletedTrace],
    recentActions := [], actionIdCounter := 0, traceVisible := true }

/-- A running trace with no actions. -/
def exRunningTrace : AgentTrace :=
  { trace_id := some "trace-1", session_id := some "s1", started_at := "t0",
    completed_at := none, status := "running", total_duration_ms := none,
    actions := [], current_agent := none, summary := none }

/-- A state with a running current trace. -/
def exRunningState : TraceState :=
  { currentTrace := some exRunningTrace, allTraces := [], recentActions := [],
    actionIdCounter := 0, traceVisible := true }

/-- A sample recent action used to fill the buffer. -/
def exRecentAction : AgentAction :=
  { id := "a0", agent := some "manager", action := some "think", input := none,
    output := none, status := "running", duration_ms := none,
    timestamp := "t0", metadata := none }

/-- A state whose recent-actions buffer is exactly full. -/
def exFullState : TraceState :=
  { currentTrace := none, allTraces := [],
    recentActions := List.replicate 50 exRecentAction,
    actionIdCounter := 3, traceVisible := true }

/-- A state holding one action with id a1 in both collections, with the
two copies in agreement. -/
def exAgreeState : TraceState := step (Op.action_start exActionA1) "t1" initialState

/-!
Claims about the service worker.
-/

/-- Claim C2: for every GET request under the API prefix whose network
fetch succeeds with an HTTP-ok response, the response is returned to the
caller, and it is written to the dynamic store under the request key
exactly when the path starts with one of the cacheable allowlist
prefixes; for a non-allowlisted path the storage is left untouched, so a
repeated request can never hit a cache entry written by this path. -/
theorem C2_api_cache_allowlist (req : Request) (r : Response)
    (storage : CacheStorage) (hm : req.method = "GET")
    (hp : strStartsWith req.pathname "/api/" = true) (hok : r.ok = true) :
    routeRequest req = FetchRoute.api ∧
    (handleApiRequest req (some r) storage).1 = r ∧
    (handleApiRequest req (some r) storage).2 =
      (if isCacheableApi req.pathname then
        cacheOpenPut storage DYNAMIC_CACHE req.url r
      else storage) ∧
    (isCacheableApi req.pathname = true →
      storeLookup (handleApiRequest req (some r) storage).2 DYNAMIC_CACHE
        req.url = some r) ∧
    (isCacheableApi req.pathname = false →
      (handleApiRequest req (some r) storage).2 = storage) := by
  have h1 : routeRequest req = FetchRoute.api := by
    simp [routeRequest, hm, hp]
  cases hc : isCacheableApi req.pathname
  · refine ⟨h1, ?_, ?_, ?_, ?_⟩ <;>
      simp [handleApiRequest, hok, hc]
  · refine ⟨h1, ?_, ?_, ?_, ?_⟩ <;>
      simp [handleApiRequest, hok, hc, storeLookup_cacheOpenPut]

/-- Witness for C2 at a concrete allowlisted request and empty storage. -/
theorem C2_witness :
    routeRequest exApiReq = FetchRoute.api ∧
    (handleApiRequest exApiReq (some exApiResponse) []).1 = exApiResponse ∧
    (handleApiRequest exApiReq (some exApiResponse) []).2 =
      (if isCacheableApi exApiReq.pathname then
        cacheOpenPut [] DYNAMIC_CACHE exApiReq.url exApiResponse
      else []) ∧
    (isCacheableApi exApiReq.pathname = true →
      storeLookup (handleApiRequest exApiReq (some exApiResponse) []).2
        DYNAMIC_CACHE exApiReq.url = some exApiResponse) ∧
    (isCacheableApi exApiReq.pathname = false →
      (handleApiRequest exApiReq (some exApiResponse) []).2 = []) :=
  C2_api_cache_allowlist exApiReq exApiResponse [] rfl (by decide) (by decide)

/-- Claim C3 counterexample: with the fetch of the core asset
/offline.html failing, the install listener logs the failure yet the
promise handed to `event.waitUntil` still resolves, so the install step
completes instead of failing as the claim states. -/
theorem C3_counterexample :
    "/offline.html" ∈ CORE_ASSETS ∧
    assetFetchFails failingCoreFetch "/offline.html" = true ∧
    installStepFails (installStep failingCoreFetch) = false ∧
    (installStep failingCoreFetch).loggedInstallFailed = true := by decide

/-- Claim C3 (amended): the core-asset population is all-or-nothing — if
fetching any single asset of the fixed manifest fails, nothing is cached,
`skipWaiting` is not invoked, the failure is logged and not retried; but
the rejection is swallowed by the final catch, so the install step's
`waitUntil` promise resolves and installation still completes. -/
theorem C3_install_all_or_nothing (f : String → Option Response) (u : String)
    (hu : u ∈ CORE_ASSETS) (hfail : assetFetchFails f u = true) :
    (installStep f).coreCacheEntries = [] ∧
    (installStep f).skipWaitingCalled = false ∧
    (installStep f).loggedInstallFailed = true ∧
    installStepFails (installStep f) = false := by
  have h := addAllAssets_fail f CORE_ASSETS u hu hfail
  simp [installStep, installStepFails, h]

/-- Witness for the amended C3 at the concrete failing fetch map. -/
theorem C3_witness :
    (installStep failingCoreFetch).coreCacheEntries = [] ∧
    (installStep failingCoreFetch).skipWaitingCalled = false ∧
    (installStep failingCoreFetch).loggedInstallFailed = true ∧
    installStepFails (installStep failingCoreFetch) = false :=
  C3_install_all_or_nothing failingCoreFetch "/offline.html" (by decide) (by decide)

/-- Claim C4: on a static-asset request with a cache hit, the cached
entry itself is returned, the storage is unchanged at return time (the
caller never sees a refreshed copy), and exactly one background re-fetch
of the same key is triggered; the background refresh writes an ok
response back to the dynamic store under that key. -/
theorem C4_static_cache_hit (req : Request) (fetchResult : Option Response)
    (storage : CacheStorage) (cached : Response)
    (h : cachesMatch storage req.url = some cached) :
    (handleStaticAssets req fetchResult storage).result = Except.ok cached ∧
    (handleStaticAssets req fetchResult storage).storage = storage ∧
    (handleStaticAssets req fetchResult storage).backgroundFetchKeys = [req.url] ∧
    (∀ r2 : Response, r2.ok = true →
      storeLookup (fetchAndCache req.url (some r2) storage) DYNAMIC_CACHE
        req.url = some r2) := by
  have e : handleStaticAssets req fetchResult storage =
      { result := .ok cached, storage := storage,
        backgroundFetchKeys := [req.url] } := by
    simp [handleStaticAssets, h]
  refine ⟨by rw [e], by rw [e], by rw [e], ?_⟩
  intro r2 hok
  simp [fetchAndCache, hok, storeLookup_cacheOpenPut]

/-- Witness for C4 at a concrete cached stylesheet. -/
theorem C4_witness :
    (handleStaticAssets exStaticReq none exStaticStorage).result =
      Except.ok exCachedCss ∧
    (handleStaticAssets exStaticReq none exStaticStorage).storage =
      exStaticStorage ∧
    (handleStaticAssets exStaticReq none exStaticStorage).backgroundFetchKeys =
      [exStaticReq.url] ∧
    (∀ r2 : Response, r2.ok = true →
      storeLookup (fetchAndCache exStaticReq.url (some r2) exStaticStorage)
        DYNAMIC_CACHE exStaticReq.url = some r2) :=
  C4_static_cache_hit exStaticReq none exStaticStorage exCachedCss (by decide)

/-- Claim C5: a navigation request whose network fetch fails, with no
cache entry for the request and no cached offline page, is answered with
the built-in hard-coded fallback HTML document at status 200 and
content-type text/html. -/
theorem C5_navigation_fallback (req : Request) (storage : CacheStorage)
    (h1 : cachesMatch storage req.url = none)
    (h2 : cachesMatch storage OFFLINE_URL = none) :
    (handleNavigationRequest req none storage).1 =
      mkResponse 200 "text/html" getOfflineHTML ∧
    (handleNavigationRequest req none storage).1.status = 200 ∧
    (handleNavigationRequest req none storage).1.contentType = "text/html" ∧
    (handleNavigationRequest req none storage).1.body = getOfflineHTML := by
  have e : handleNavigationRequest req none storage =
      (mkResponse 200 "text/html" getOfflineHTML, storage) := by
    simp [handleNavigationRequest, h1, h2]
  exact ⟨by rw [e], by rw [e]; rfl, by rw [e]; rfl, by rw [e]; rfl⟩

/-- Witness for C5 at a concrete navigation request and empty storage. -/
theorem C5_witness :
    (handleNavigationRequest exNavReq none []).1 =
      mkResponse 200 "text/html" getOfflineHTML ∧
    (handleNavigationRequest exNavReq none []).1.status = 200 ∧
    (handleNavigationRequest exNavReq none []).1.contentType = "text/html" ∧
    (handleNavigationRequest exNavReq none []).1.body = getOfflineHTML :=
  C5_navigation_fallback exNavReq [] rfl rfl

/-- Claim C6: after activation, every pre-existing cache store whose name
is not one of the three current names is gone from the live names, and a
store with a current name is never deleted by activation. -/
theorem C6_activation_purges_stale (storage : CacheStorage) (name : String) :
    (name ∈ cacheKeys storage → isCurrentCacheName name = false →
      name ∉ cacheKeys (activateCaches storage)) ∧
    (name ∈ cacheKeys storage → isCurrentCacheName name = true →
      name ∈ cacheKeys (activateCaches storage)) := by
  constructor
  · intro _ hstale hmem
    simp only [cacheKeys, activateCaches, List.mem_map, List.mem_filter] at hmem
    obtain ⟨nc, ⟨_, hcur⟩, hfst⟩ := hmem
    rw [hfst] at hcur
    rw [hstale] at hcur
    cases hcur
  · intro hmem hcur
    simp only [cacheKeys, List.mem_map] at hmem
    obtain ⟨nc, hnc, hfst⟩ := hmem
    simp only [cacheKeys, activateCaches, List.mem_map, List.mem_filter]
    exact ⟨nc, ⟨hnc, by rw [hfst]; exact hcur⟩, hfst⟩

/-- Witness for C6: the stale store is purged, the core store kept. -/
theorem C6_witness :
    "syncora-old-v0" ∉ cacheKeys (activateCaches exOldStorage) ∧
    CACHE_NAME ∈ cacheKeys (activateCaches exOldStorage) :=
  ⟨(C6_activation_purges_stale exOldStorage "syncora-old-v0").1
      (by decide) (by decide),
   (C6_activation_purges_stale exOldStorage CACHE_NAME).2
      (by decide) (by decide)⟩

/-!
Claims about the agent-trace reducer.
-/

/-- Claim C7: across any sequence of inbound events and local calls the
`recentActions` buffer never exceeds 50 entries, and pushing a new action
onto a full buffer — by an action-start event or by a local addAction
call — evicts the oldest (last) entry and places the new action at the
front. -/
theorem C7_recentActions_bounded :
    (∀ ops : List (Op × String),
      (runOps ops initialState).recentActions.length ≤ 50) ∧
    (∀ (d : ActionStartData) (now : String) (st : TraceState),
      st.recentActions.length = 50 →
      (step (Op.action_start d) now st).recentActions =
        (mkStartAction d now st.actionIdCounter).1 ::
          st.recentActions.dropLast) ∧
    (∀ (args : AddActionArgs) (now : String) (st : TraceState),
      st.recentActions.length = 50 →
      (step (Op.addAction args) now st).recentActions =
        (mkLocalAction args now st.actionIdCounter).1 ::
          st.recentActions.dropLast) := by
  refine ⟨?_, ?_, ?_⟩
  · intro ops
    exact runOps_recentActions_le ops initialState (by simp [initialState])
  · intro d now st h
    simp only [step, stepActionStart]
    have hd : st.recentActions.dropLast = st.recentActions.take 49 := by
      rw [List.dropLast_eq_take, h]
    rw [hd]
    rw [show (50 : Nat) = 49 + 1 from rfl, List.take_succ_cons]
  · intro args now st h
    simp only [step, stepAddAction]
    have hd : st.recentActions.dropLast = st.recentActions.take 49 := by
      rw [List.dropLast_eq_take, h]
    rw [hd]
    rw [show (50 : Nat) = 49 + 1 from rfl, List.take_succ_cons]

/-- Witness for C7: the empty run, plus an event push and a local
addAction push onto a concretely full buffer. -/
theorem C7_witness :
    (runOps [] initialState).recentActions.length ≤ 50 ∧
    (step (Op.action_start exActionA1) "t9" exFullState).recentActions =
      (mkStartAction exActionA1 "t9" exFullState.actionIdCounter).1 ::
        exFullState.recentActions.dropLast ∧
    (step (Op.addAction exAddArgs) "t9" exFullState).recentActions =
      (mkLocalAction exAddArgs "t9" exFullState.actionIdCounter).1 ::
        exFullState.recentActions.dropLast :=
  ⟨C7_recentActions_bounded.1 [],
   C7_recentActions_bounded.2.1 exActionA1 "t9" exFullState (by decide),
   C7_recentActions_bounded.2.2 exAddArgs "t9" exFullState (by decide)⟩

/-- Claim C8 counterexample: after `trace_started` and `trace_complete`
the current trace has status completed and no actions, yet a subsequent
`action_start` appends an action to that same trace (same trace id,
status still completed, action count 0 to 1) — refuting the claim that
actions are appended only while the status is running. -/
theorem C8_counterexample :
    (let s2 := runOps [(Op.trace_started exTraceStarted1, "t0"),
                       (Op.trace_complete exTraceComplete1, "t2")] initialState
     let s3 := step (Op.action_start exActionA1) "t3" s2
     s2.currentTrace.map (fun t => t.status) = some "completed" ∧
     s2.currentTrace.map (fun t => t.actions.length) = some 0 ∧
     s2.currentTrace.map (fun t => t.trace_id) = some (some "trace-1") ∧
     s3.currentTrace.map (fun t => t.trace_id) = some (some "trace-1") ∧
     s3.currentTrace.map (fun t => t.status) = some "completed" ∧
     s3.currentTrace.map (fun t => t.actions.length) = some 1) := by decide

/-- Claim C8 (amended): action-start events and local addAction calls
append the new action to the current trace unconditionally — whatever the
trace's status is, including completed and error — and the append leaves
the status field unchanged. -/
theorem C8_append_regardless_of_status (d : ActionStartData)
    (args : AddActionArgs) (now : String) (st : TraceState) (t : AgentTrace)
    (h : st.currentTrace = some t) :
    (step (Op.action_start d) now st).currentTrace =
      some { t with
        current_agent := (mkStartAction d now st.actionIdCounter).1.agent,
        actions := t.actions ++ [(mkStartAction d now st.actionIdCounter).1] } ∧
    (step (Op.addAction args) now st).currentTrace =
      some { t with
        current_agent := args.agent,
        actions := t.actions ++ [(mkLocalAction args now st.actionIdCounter).1] } := by
  constructor
  · simp [step, stepActionStart, h]
  · simp [step, stepAddAction, h]

/-- Witness for the amended C8 at a concretely completed trace. -/
theorem C8_witness :
    (step (Op.action_start exActionA1) "t3" exCompletedState).currentTrace =
      some { exCompletedTrace with
        current_agent :=
          (mkStartAction exActionA1 "t3" exCompletedState.actionIdCounter).1.agent,
        actions := exCompletedTrace.actions ++
          [(mkStartAction exActionA1 "t3" exCompletedState.actionIdCounter).1] } ∧
    (step (Op.addAction exAddArgs) "t3" exCompletedState).currentTrace =
      some { exCompletedTrace with
        current_agent := exAddArgs.agent,
        actions := exCompletedTrace.actions ++
          [(mkLocalAction exAddArgs "t3" exCompletedState.actionIdCounter).1] } :=
  C8_append_regardless_of_status exActionA1 exAddArgs "t3" exCompletedState
    exCompletedTrace rfl

/-- Claim C9: from a state with no current trace and an empty
`recentActions` buffer, one `action_start` event auto-creates a trace
whose action list is exactly the one action built from the event's data
(`mkStartAction`), and `recentActions` holds exactly that same action. -/
theorem C9_action_start_auto_creates (d : ActionStartData) (now : String)
    (counter : Nat) (allT : List AgentTrace) (vis : Bool) :
    ∃ t : AgentTrace,
      (step (Op.action_start d) now
        { currentTrace := none, allTraces := allT, recentActions := [],
          actionIdCounter := counter, traceVisible := vis }).currentTrace =
        some t ∧
      t.actions = [(mkStartAction d now counter).1] ∧
      (step (Op.action_start d) now
        { currentTrace := none, allTraces := allT, recentActions := [],
          actionIdCounter := counter, traceVisible := vis }).recentActions =
        [(mkStartAction d now counter).1] :=
  ⟨_, rfl, rfl, rfl⟩

/-- Claim C10: every `trace_complete` / `trace_completed` event and every
local `completeTrace` call with a non-null current trace archives a
completed copy at the front of `allTraces` under the 20-entry cap, with
no status precondition; concretely, two `trace_complete` events with no
intervening `trace_start` leave two `allTraces` entries with the same
trace id. -/
theorem C10_trace_complete_archives :
    (∀ (d : TraceCompleteData) (now : String) (st : TraceState)
        (t : AgentTrace),
      st.currentTrace = some t →
      (step (Op.trace_complete d) now st).allTraces =
        ({ t with status := "completed",
                  completed_at := some (d.timestamp.getD now),
                  total_duration_ms := d.duration_ms,
                  summary := d.summary,
                  current_agent := none } :: st.allTraces).take 20) ∧
    (∀ (summary : Option String) (now : String) (st : TraceState)
        (t : AgentTrace),
      st.currentTrace = some t →
      (step (Op.completeTrace summary) now st).allTraces =
        ({ t with status := "completed",
                  completed_at := some now,
                  summary := summary,
                  current_agent := none } :: st.allTraces).take 20) ∧
    (let s := runOps [(Op.trace_started exTraceStarted1, "t0"),
                      (Op.trace_complete exTraceComplete1, "t2"),
                      (Op.trace_complete exTraceComplete2, "t4")] initialState
     s.allTraces.length = 2 ∧
     s.allTraces.map (fun t => t.trace_id) =
       [some "trace-1", some "trace-1"]) := by
  refine ⟨?_, ?_, ?_⟩
  · intro d now st t h
    simp [step, stepTraceComplete, h]
  · intro summary now st t h
    simp [step, stepCompleteTrace, h]
  · decide

/-- Witness for C10 at a concrete running trace, both for the wire event
and for the local completeTrace call. -/
theorem C10_witness :
    (step (Op.trace_complete exTraceComplete1) "t2" exRunningState).allTraces =
      ({ exRunningTrace with status := "completed",
                             completed_at :=
                               some (exTraceComplete1.timestamp.getD "t2"),
                             total_duration_ms := exTraceComplete1.duration_ms,
                             summary := exTraceComplete1.summary,
                             current_agent := none } ::
        exRunningState.allTraces).take 20 ∧
    (step (Op.completeTrace (some "all done")) "t2" exRunningState).allTraces =
      ({ exRunningTrace with status := "completed",
                             completed_at := some "t2",
                             summary := some "all done",
                             current_agent := none } ::
        exRunningState.allTraces).take 20 :=
  ⟨C10_trace_complete_archives.1 exTraceComplete1 "t2" exRunningState
     exRunningTrace rfl,
   C10_trace_complete_archives.2.1 (some "all done") "t2" exRunningState
     exRunningTrace rfl⟩

/-- The `action_update` patch sends agreeing copies of an action id to
agreeing copies. -/
theorem patchUpdate_agree (d : ActionUpdateData) (i : String)
    (a b : AgentAction) (hai : a.id = i) (hbi : b.id = i)
    (hab : a.status = b.status ∧ a.output = b.output ∧
      a.duration_ms = b.duration_ms) :
    ((if some a.id = d.action_id then applyActionUpdate d a else a).status =
      (if some b.id = d.action_id then applyActionUpdate d b else b).status ∧
     (if some a.id = d.action_id then applyActionUpdate d a else a).output =
      (if some b.id = d.action_id then applyActionUpdate d b else b).output ∧
     (if some a.id = d.action_id then applyActionUpdate d a else a).duration_ms =
      (if some b.id = d.action_id then applyActionUpdate d b else b).duration_ms) := by
  obtain ⟨h1, h2, h3⟩ := hab
  have hcond : (some a.id = d.action_id) ↔ (some b.id = d.action_id) := by
    rw [hai, hbi]
  by_cases hc : some a.id = d.action_id
  · have hc2 : some b.id = d.action_id := hcond.mp hc
    rw [if_pos hc, if_pos hc2]
    refine ⟨rfl, ?_, rfl⟩
    simp only [applyActionUpdate]
    cases d.output <;> simp [h2]
  · have hc2 : ¬ some b.id = d.action_id := fun hh => hc (hcond.mpr hh)
    rw [if_neg hc, if_neg hc2]
    exact ⟨h1, h2, h3⟩

/-- The `action_completed` patch sends agreeing copies of an action id to
agreeing copies. -/
theorem patchCompleted_agree (d : ActionCompletedData) (i : String)
    (a b : AgentAction) (hai : a.id = i) (hbi : b.id = i)
    (hab : a.status = b.status ∧ a.output = b.output ∧
      a.duration_ms = b.duration_ms) :
    ((if some a.id = d.action_id then applyActionCompleted d a else a).status =
      (if some b.id = d.action_id then applyActionCompleted d b else b).status ∧
     (if some a.id = d.action_id then applyActionCompleted d a else a).output =
      (if some b.id = d.action_id then applyActionCompleted d b else b).output ∧
     (if some a.id = d.action_id then applyActionCompleted d a else a).duration_ms =
      (if some b.id = d.action_id then applyActionCompleted d b else b).duration_ms) := by
  obtain ⟨h1, h2, h3⟩ := hab
  have hcond : (some a.id = d.action_id) ↔ (some b.id = d.action_id) := by
    rw [hai, hbi]
  by_cases hc : some a.id = d.action_id
  · have hc2 : some b.id = d.action_id := hcond.mp hc
    rw [if_pos hc, if_pos hc2]
    exact ⟨rfl, rfl, rfl⟩
  · have hc2 : ¬ some b.id = d.action_id := fun hh => hc (hcond.mpr hh)
    rw [if_neg hc, if_neg hc2]
    exact ⟨h1, h2, h3⟩

/-- Claim C1 counterexample: after an `action_start` for id a1 the two
copies agree; a subsequent `action_error` for a1 patches only the current
trace's copy to status error while the `recentActions` copy stays
running, so the two copies of the action disagree after the event. -/
theorem C1_counterexample :
    (let s1 := step (Op.action_start exActionA1) "t1" initialState
     let s2 := step (Op.action_error exErrorA1) "t2" s1
     copiesAgreeOn "a1" s1 ∧
     (currentActions s2).map (fun a => (a.id, a.status)) = [("a1", "error")] ∧
     s2.recentActions.map (fun a => (a.id, a.status)) = [("a1", "running")] ∧
     ¬ copiesAgreeOn "a1" s2) := by decide

/-- Claim C1 (amended): `action_update` and `action_completed` apply the
identical per-action patch to both `currentTrace.actions` and
`recentActions`, so an action id whose two copies agreed on status,
output and duration before the event still agrees after it;
`action_error`, however, patches only the current trace's copy, so after
an `action_error` the two copies can disagree. -/
theorem C1_dual_write_on_update_events (i now : String) (st : TraceState)
    (h : copiesAgreeOn i st) :
    (∀ d : ActionUpdateData,
      copiesAgreeOn i (step (Op.action_update d) now st)) ∧
    (∀ d : ActionCompletedData,
      copiesAgreeOn i (step (Op.action_completed d) now st)) := by
  constructor
  · intro d
    refine copiesAgree_map i
      (fun a => if some a.id = d.action_id then applyActionUpdate d a else a)
      (fun a => ?_) (patchUpdate_agree d i) st _ ?_ ?_ h
    · by_cases hc : some a.id = d.action_id <;> simp [hc, applyActionUpdate]
    · cases hc : st.currentTrace <;>
        simp [step, stepActionUpdate, currentActions, hc]
    · simp [step, stepActionUpdate]
  · intro d
    refine copiesAgree_map i
      (fun a => if some a.id = d.action_id then applyActionCompleted d a else a)
      (fun a => ?_) (patchCompleted_agree d i) st _ ?_ ?_ h
    · by_cases hc : some a.id = d.action_id <;>
        simp [hc, applyActionCompleted]
    · cases hc : st.currentTrace <;>
        simp [step, stepActionCompleted, currentActions, hc]
    · simp [step, stepActionCompleted]

/-- Witness for the amended C1 at a concrete agreeing state. -/
theorem C1_witness :
    copiesAgreeOn "a1" (step (Op.action_update exUpdA1) "t5" exAgreeState) ∧
    copiesAgreeOn "a1" (step (Op.action_completed exCompA1) "t6" exAgreeState) :=
  ⟨(C1_dual_write_on_update_events "a1" "t5" exAgreeState (by decide)).1 exUpdA1,
   (C1_dual_write_on_update_events "a1" "t6" exAgreeState (by decide)).2 exCompA1⟩
